import Mathlib

/-
Verification of the entity-curation layer of the RGPD anonymizer.

The store operations live in the React frontend; the primary version is
src/unnamed/part_000 (App.js), with a corrected variant embedded in
src/installation_guide.md.  Entities are plain JS objects
{id, text, type, source, confidence, positions, replacement, selected}
held in a list; every operation is a pure map/filter/append over that
list, which we embed directly.
-/

namespace Anonymizer

/-- A half-open character span {start, end} into the original document.
The JS field named end is a Lean keyword, so it is rendered endPos. -/
structure Span where
  start : Nat
  endPos : Nat
deriving DecidableEq

/-- One detected or manual entity, exactly the JS object shape used across
the frontend: id, text, type, source, confidence, positions, replacement,
selected.  type and source are plain strings in the JS source. -/
structure Entity where
  id : String
  text : String
  type : String
  source : String
  confidence : Rat
  positions : List Span
  replacement : String
  selected : Bool
deriving DecidableEq

/-- Error taxonomy of the spec (section 7). -/
inductive StoreError where
  | InvalidArgument
  | SpanConflict
  | NotFound
  | OverlapError
deriving DecidableEq

/-- toggleEntity from src/unnamed/part_000 lines 113-119: map over the list,
flipping selected on the entity whose id matches. -/
def toggleEntity (entities : List Entity) (entityId : String) : List Entity :=
  entities.map fun entity =>
    if entity.id = entityId then { entity with selected := !entity.selected } else entity

/-- updateEntityReplacement from src/unnamed/part_000 lines 121-127: map over
the list, setting replacement on the entity whose id matches.  This version
performs no validation of the new value. -/
def updateEntityReplacement (entities : List Entity) (entityId : String)
    (newReplacement : String) : List Entity :=
  entities.map fun entity =>
    if entity.id = entityId then { entity with replacement := newReplacement } else entity

/-- The JS String.prototype.trim: drop leading and trailing whitespace.
Defined over the character list so that it evaluates inside the kernel. -/
def jsTrim (s : String) : String :=
  ⟨((s.data.dropWhile Char.isWhitespace).reverse.dropWhile Char.isWhitespace).reverse⟩

/-- updateEntityReplacement from src/installation_guide.md lines 508-519: the
corrected variant rejects an empty or whitespace-only value (alert, no state
change, modelled as an InvalidArgument error) and otherwise stores the
trimmed value. -/
def updateEntityReplacementGuide (entities : List Entity) (entityId : String)
    (newReplacement : String) : Except StoreError (List Entity) :=
  if jsTrim newReplacement = "" then .error .InvalidArgument
  else .ok (entities.map fun entity =>
    if entity.id = entityId then { entity with replacement := jsTrim newReplacement } else entity)

/-- deleteEntity from src/unnamed/part_000 lines 129-133: after the confirm
dialog, filter the list keeping entities whose id differs.  We model the
confirmed branch; an absent id leaves the list unchanged and raises no
error. -/
def deleteEntity (entities : List Entity) (entityId : String) : List Entity :=
  entities.filter fun entity => entity.id != entityId

/-- createGroup from src/unnamed/part_000 lines 135-151.  Fewer than two
grouping ids: alert and return (an InvalidArgument error).  The prompt
result is the groupReplacement argument; a cancelled prompt and the empty
string are both falsy in the JS guard, so the state is returned unchanged
with no error.  Otherwise every entity whose id is in the grouping list
gets the shared replacement. -/
def createGroup (entities : List Entity) (selectedEntities : List String)
    (groupReplacement : String) : Except StoreError (List Entity) :=
  if selectedEntities.length < 2 then .error .InvalidArgument
  else if groupReplacement = "" then .ok entities
  else .ok (entities.map fun entity =>
    if selectedEntities.contains entity.id then
      { entity with replacement := groupReplacement }
    else entity)

/-- addManualEntity from src/unnamed/part_000 lines 153-166: build the new
entity object and append it.  The JS code performs no validation whatsoever
(no bounds check, no text check, no overlap check) and cannot fail.  The id
comes from the clock (Date.now), modelled as the newId argument. -/
def addManualEntity (entities : List Entity) (newId : String) (text : String)
    (ty : String) (replacement : String) (startPos endPos : Nat) : List Entity :=
  entities ++ [{ id := newId, text := text, type := ty, source := "MANUAL",
                 confidence := 1, replacement := replacement,
                 positions := [{ start := startPos, endPos := endPos }],
                 selected := true }]

/-- The select-all button onClick from src/unnamed/part_000 lines 469-477
(identical in src/frontend/src/App.js lines 571-579): compute whether every
entity is selected, then map, assigning the negation to each entity. -/
def selectAllOnClick (entities : List Entity) : List Entity :=
  let allSelected := entities.all fun e => e.selected
  entities.map fun e => { e with selected := !allSelected }

/-- Outcomes of the generateDocument guard in
src/installation_guide.md lines 437-448. -/
inductive GenerateError where
  | noEntities
  | noneSelected
deriving DecidableEq

/-- generateDocument from src/installation_guide.md lines 437-448: if the
entity list is empty, alert and return without sending; if no entity is
selected, alert and return without sending; otherwise the POST request is
issued with the entity list as payload (modelled by the ok value). -/
def generateDocument (entities : List Entity) : Except GenerateError (List Entity) :=
  if entities.length = 0 then .error .noEntities
  else if (entities.filter fun e => e.selected).length = 0 then .error .noneSelected
  else .ok entities

/-- Two spans of half-open ranges overlap. -/
def spanOverlap (a b : Span) : Bool :=
  a.start < b.endPos && b.start < a.endPos

/-- Two entities overlap when some position of one overlaps some position of
the other. -/
def entOverlap (e f : Entity) : Bool :=
  e.positions.any fun p => f.positions.any fun q => spanOverlap p q

/-- Invariant 2 of the spec: across the entity set, no two selected entities
have overlapping spans (checked pairwise, left to right). -/
def selectedNonOverlap : List Entity → Bool
  | [] => true
  | e :: rest =>
      (rest.all fun f => !(e.selected && f.selected && entOverlap e f)) &&
      selectedNonOverlap rest

/-- Modelled from the spec: the backend DocumentRewriter (server.py) is not
among the source files, only its callers are.  Spec section 4.5 step 1:
collect all positions of the selected entities, one (start, end,
replacement) triple per occurrence. -/
def selectedSpans (entities : List Entity) : List (Nat × Nat × String) :=
  (entities.filter fun e => e.selected).flatMap fun e =>
    e.positions.map fun p => (p.start, p.endPos, e.replacement)

/-- Modelled from the spec: insertion step of the sort of section 4.5
step 2, ascending by start. -/
def insertSpan (t : Nat × Nat × String) :
    List (Nat × Nat × String) → List (Nat × Nat × String)
  | [] => [t]
  | u :: rest => if t.1 ≤ u.1 then t :: u :: rest else u :: insertSpan t rest

/-- Modelled from the spec: sort the collected triples ascending by start
(spec section 4.5 step 2). -/
def sortSpans : List (Nat × Nat × String) → List (Nat × Nat × String)
  | [] => []
  | t :: rest => insertSpan t (sortSpans rest)

/-- Modelled from the spec: the defensive re-check of section 4.5 step 2,
true when no two collected spans overlap. -/
def spansDisjoint : List (Nat × Nat × String) → Bool
  | [] => true
  | t :: rest =>
      (rest.all fun u => decide (t.2.1 ≤ u.1) || decide (u.2.1 ≤ t.1)) &&
      spansDisjoint rest

/-- Modelled from the spec: the single left-to-right rebuild pass of
section 4.5 step 3, copying the original verbatim between consecutive spans
and substituting each replacement. -/
def rebuild (doc : List Char) : Nat → List (Nat × Nat × String) → List Char
  | cursor, [] => doc.drop cursor
  | cursor, (s, e, r) :: rest => ((doc.take s).drop cursor) ++ r.data ++ rebuild doc e rest

/-- Modelled from the spec: DocumentRewriter.rewrite of section 4.5 — the
backend implementation is not among the source files.  Collect the selected
occurrences, sort by start, fail with OverlapError when two selected spans
overlap, otherwise rebuild the text in one pass. -/
def rewrite (originalText : List Char) (entities : List Entity) :
    Except StoreError (List Char) :=
  let spans := sortSpans (selectedSpans entities)
  if spansDisjoint spans then .ok (rebuild originalText 0 spans)
  else .error .OverlapError

/-- Sample entity: selected, span [0,5), as detected on the document
"abcde". -/
def entA : Entity :=
  { id := "1", text := "abcde", type := "person", source := "REGEX",
    confidence := 1, positions := [{ start := 0, endPos := 5 }],
    replacement := "[PERSONNE]", selected := true }

/-- Sample entity: not selected, span [3,8), overlapping entA. -/
def entB : Entity :=
  { id := "2", text := "defgh", type := "organization", source := "NER",
    confidence := 1, positions := [{ start := 3, endPos := 8 }],
    replacement := "[ORG]", selected := false }

/-- Sample entity: selected, span [10,12), disjoint from entA. -/
def entC : Entity :=
  { id := "3", text := "xy", type := "email", source := "REGEX",
    confidence := 1, positions := [{ start := 10, endPos := 12 }],
    replacement := "[EMAIL]", selected := true }

/-- Claim C6: every entity created by addManualEntity has source MANUAL,
confidence 1.0, selected true, and exactly one position covering
[startPos, endPos): the operation appends exactly one such entity. -/
theorem addManualEntity_manual_fields (entities : List Entity)
    (newId text ty replacement : String) (startPos endPos : Nat) :
    ∃ ent, addManualEntity entities newId text ty replacement startPos endPos =
        entities ++ [ent] ∧
      ent.source = "MANUAL" ∧ ent.confidence = 1 ∧ ent.selected = true ∧
      ent.positions = [{ start := startPos, endPos := endPos }] :=
  ⟨_, rfl, rfl, rfl, rfl, rfl⟩

/-- Claim C2 counterexample: the document is "abcde" and entA already covers
[0,5).  A manual add with the same span (overlapping) and text "zz"
(different from the document slice) violates every validation condition of
the claim, yet the entity is appended — the set changes and no SpanConflict
failure is possible, since addManualEntity is a total function into
List Entity. -/
theorem addManualEntity_counterexample :
    addManualEntity [entA] "2" "zz" "person" "[X]" 0 5 =
      [entA,
       { id := "2", text := "zz", type := "person", source := "MANUAL",
         confidence := 1, positions := [{ start := 0, endPos := 5 }],
         replacement := "[X]", selected := true }] ∧
    entOverlap
      { id := "2", text := "zz", type := "person", source := "MANUAL",
        confidence := 1, positions := [{ start := 0, endPos := 5 }],
        replacement := "[X]", selected := true } entA = true ∧
    "zz".data ≠ (("abcde".data.drop 0).take 5) := by
  decide

/-- Claim C2 (amended): addManualEntity performs no validation at all and
never fails: for every entity set and arguments it returns the original
list with exactly one appended entity carrying the given fields, source
MANUAL, confidence 1 and selected true. -/
theorem addManualEntity_always_appends (entities : List Entity)
    (newId text ty replacement : String) (startPos endPos : Nat) :
    (addManualEntity entities newId text ty replacement startPos endPos).length =
      entities.length + 1 ∧
    (addManualEntity entities newId text ty replacement startPos endPos).take
      entities.length = entities ∧
    (addManualEntity entities newId text ty replacement startPos endPos).getLast? =
      some { id := newId, text := text, type := ty, source := "MANUAL",
             confidence := 1, positions := [{ start := startPos, endPos := endPos }],
             replacement := replacement, selected := true } := by
  refine ⟨by simp [addManualEntity], ?_, ?_⟩
  · simp [addManualEntity, List.take_left]
  · simp [addManualEntity]

/-- Claim C7: deleteEntity keeps exactly the entities whose id differs from
the given one, and when the id is absent it is a uniform no-op (the filter
never raises an error), so the sanctioned no-op alternative is the one the
code implements. -/
theorem deleteEntity_removes_exactly (entities : List Entity) (entityId : String) :
    (∀ e, e ∈ deleteEntity entities entityId ↔ e ∈ entities ∧ e.id ≠ entityId) ∧
    ((∀ e ∈ entities, e.id ≠ entityId) → deleteEntity entities entityId = entities) := by
  constructor
  · intro e
    simp [deleteEntity, List.mem_filter, bne_iff_ne]
  · intro h
    rw [deleteEntity, List.filter_eq_self]
    intro a ha
    simpa [bne_iff_ne] using h a ha

/-- Witness for claim C7 at concrete inputs: membership characterization for
deleting id "1" from [entA, entB], and the no-op on the absent id "9". -/
theorem deleteEntity_removes_exactly_witness :
    (entB ∈ deleteEntity [entA, entB] "1" ↔ entB ∈ [entA, entB] ∧ entB.id ≠ "1") ∧
    deleteEntity [entA, entB] "9" = [entA, entB] :=
  ⟨(deleteEntity_removes_exactly [entA, entB] "1").1 entB,
   (deleteEntity_removes_exactly [entA, entB] "9").2 (by decide)⟩

/-- Claim C3 counterexample: the part_000 updateEntityReplacement accepts the
empty string — instead of failing with InvalidArgument and changing no
entity, it sets the replacement of entity "1" to "". -/
theorem updateEntityReplacement_counterexample :
    updateEntityReplacement [entA] "1" "" = [{ entA with replacement := "" }] ∧
    ({ entA with replacement := "" }) ≠ entA := by
  decide

/-- Claim C3 (amended): the part_000 updateEntityReplacement performs no
validation; the corrected variant in the installation guide fails with
InvalidArgument on an empty or whitespace-only value (changing nothing,
since the error carries no new state) and otherwise stores the trimmed
value on exactly the matching entity, leaving every other field and every
other entity unchanged. -/
theorem updateEntityReplacementGuide_spec (entities : List Entity)
    (entityId v : String) :
    (jsTrim v = "" → updateEntityReplacementGuide entities entityId v =
      .error .InvalidArgument) ∧
    (jsTrim v ≠ "" → ∃ es : List Entity,
      updateEntityReplacementGuide entities entityId v = .ok es ∧
      es.length = entities.length ∧
      ∀ i : Nat, es[i]? = entities[i]?.map fun ent =>
        if ent.id = entityId then { ent with replacement := jsTrim v } else ent) := by
  constructor
  · intro h
    simp [updateEntityReplacementGuide, h]
  · intro h
    refine ⟨entities.map fun ent =>
        if ent.id = entityId then { ent with replacement := jsTrim v } else ent,
      by simp [updateEntityReplacementGuide, h], by simp, fun i => ?_⟩
    simp [List.getElem?_map]

/-- Witness for the amended claim C3 at concrete inputs: a whitespace-only
value is rejected, and a padded value is accepted. -/
theorem updateEntityReplacementGuide_spec_witness :
    updateEntityReplacementGuide [entA] "1" "  " = .error .InvalidArgument ∧
    (updateEntityReplacementGuide [entA] "1" " X ").isOk = true := by
  refine ⟨(updateEntityReplacementGuide_spec [entA] "1" "  ").1 (by decide), ?_⟩
  obtain ⟨es, heq, -, -⟩ :=
    (updateEntityReplacementGuide_spec [entA] "1" " X ").2 (by decide)
  rw [heq]
  rfl

/-- Claim C4 counterexample: with two grouping ids and the empty shared
replacement, createGroup silently returns the unchanged state instead of
failing with InvalidArgument as the claim requires. -/
theorem createGroup_counterexample :
    createGroup [entA, entB] ["1", "2"] "" = .ok [entA, entB] ∧
    createGroup [entA, entB] ["1", "2"] "" ≠ .error .InvalidArgument := by
  refine ⟨rfl, ?_⟩
  intro h
  exact Except.noConfusion
    ((rfl : createGroup [entA, entB] ["1", "2"] "" = .ok [entA, entB]).symm.trans h)

/-- Claim C4 (amended): with fewer than two ids createGroup fails with
InvalidArgument; with at least two ids and an empty shared replacement it
silently changes nothing (no error is reported, matching an empty or
cancelled prompt); otherwise it sets the shared replacement on exactly the
entities whose id is among the given ids, preserving the length (no new
entity, no new entity id) and every other field. -/
theorem createGroup_spec (entities : List Entity) (ids : List String)
    (grp : String) :
    (ids.length < 2 → createGroup entities ids grp = .error .InvalidArgument) ∧
    (2 ≤ ids.length → grp = "" → createGroup entities ids grp = .ok entities) ∧
    (2 ≤ ids.length → grp ≠ "" → ∃ es : List Entity,
      createGroup entities ids grp = .ok es ∧
      es.length = entities.length ∧
      ∀ i : Nat, es[i]? = entities[i]?.map fun ent =>
        if ids.contains ent.id then { ent with replacement := grp } else ent) := by
  refine ⟨fun h => by simp [createGroup, h], fun h2 hg => ?_, fun h2 hg => ?_⟩
  · simp [createGroup, Nat.not_lt.2 h2, hg]
  · refine ⟨entities.map fun ent =>
        if ids.contains ent.id then { ent with replacement := grp } else ent,
      by simp [createGroup, Nat.not_lt.2 h2, hg], by simp, fun i => ?_⟩
    simp [List.getElem?_map]

/-- Witness for the amended claim C4 at concrete inputs: one id fails, two
ids with empty replacement are a silent no-op, two ids with replacement
"X" succeed. -/
theorem createGroup_spec_witness :
    createGroup [entA, entB] ["1"] "X" = .error .InvalidArgument ∧
    createGroup [entA, entB] ["9", "8"] "" = .ok [entA, entB] ∧
    (createGroup [entA, entB] ["1", "2"] "X").isOk = true := by
  refine ⟨(createGroup_spec [entA, entB] ["1"] "X").1 (by decide),
          (createGroup_spec [entA, entB] ["9", "8"] "").2.1 (by decide) rfl, ?_⟩
  obtain ⟨es, heq, -, -⟩ :=
    (createGroup_spec [entA, entB] ["1", "2"] "X").2.2 (by decide) (by decide)
  rw [heq]
  rfl

/-- Claim C8: toggleEntity preserves the length and, position by position,
leaves id, text, type, source, confidence, positions and replacement
unchanged; selected is flipped exactly on the entities whose id matches and
kept on all others.  Selection never changes span geometry. -/
theorem toggleEntity_flips_only_selected (entities : List Entity)
    (entityId : String) :
    (toggleEntity entities entityId).length = entities.length ∧
    ∀ i (h : i < entities.length) (h2 : i < (toggleEntity entities entityId).length),
      ((toggleEntity entities entityId).get ⟨i, h2⟩).id = (entities.get ⟨i, h⟩).id ∧
      ((toggleEntity entities entityId).get ⟨i, h2⟩).text = (entities.get ⟨i, h⟩).text ∧
      ((toggleEntity entities entityId).get ⟨i, h2⟩).type = (entities.get ⟨i, h⟩).type ∧
      ((toggleEntity entities entityId).get ⟨i, h2⟩).source = (entities.get ⟨i, h⟩).source ∧
      ((toggleEntity entities entityId).get ⟨i, h2⟩).confidence =
        (entities.get ⟨i, h⟩).confidence ∧
      ((toggleEntity entities entityId).get ⟨i, h2⟩).positions =
        (entities.get ⟨i, h⟩).positions ∧
      ((toggleEntity entities entityId).get ⟨i, h2⟩).replacement =
        (entities.get ⟨i, h⟩).replacement ∧
      ((toggleEntity entities entityId).get ⟨i, h2⟩).selected =
        (if (entities.get ⟨i, h⟩).id = entityId then !(entities.get ⟨i, h⟩).selected
         else (entities.get ⟨i, h⟩).selected) := by
  refine ⟨by simp [toggleEntity], fun i h h2 => ?_⟩
  simp only [toggleEntity, List.get_eq_getElem, List.getElem_map]
  by_cases hid : entities[i].id = entityId
  · simp [hid]
  · simp [hid]

/-- Witness for claim C8 at a concrete input: toggling id "1" in
[entA, entB] flips the selected flag of the first entity. -/
theorem toggleEntity_flips_only_selected_witness :
    ((toggleEntity [entA, entB] "1").get ⟨0, by decide⟩).selected = false := by
  have h :=
    ((toggleEntity_flips_only_selected [entA, entB] "1").2 0 (by decide) (by decide))
  exact h.2.2.2.2.2.2.2.trans (by decide)

/-- Claim C9: the corrected generateDocument issues no request when the
entity list is empty or when no entity is selected — it reports the
corresponding error and sends nothing — and any issued request implies the
list is non-empty with at least one selected entity. -/
theorem generateDocument_guard (entities : List Entity) :
    (entities = [] → generateDocument entities = .error .noEntities) ∧
    (entities ≠ [] → (∀ e ∈ entities, e.selected = false) →
      generateDocument entities = .error .noneSelected) ∧
    (∀ payload, generateDocument entities = .ok payload →
      entities ≠ [] ∧ ∃ e, e ∈ entities ∧ e.selected = true) := by
  refine ⟨fun h => by simp [generateDocument, h], fun h1 h2 => ?_, fun payload hok => ?_⟩
  · have hfil : entities.filter (fun e => e.selected) = [] := by
      rw [List.filter_eq_nil_iff]
      intro e he
      simp [h2 e he]
    simp [generateDocument, hfil, List.length_eq_zero, h1]
  · by_cases h0 : entities.length = 0
    · simp [generateDocument, h0] at hok
    · by_cases h1 : (entities.filter fun e => e.selected).length = 0
      · simp [generateDocument, h0, h1] at hok
      · refine ⟨fun hnil => h0 (by simp [hnil]), ?_⟩
        have hne : entities.filter (fun e => e.selected) ≠ [] := by
          intro hh
          exact h1 (by simp [hh])
        obtain ⟨e, he⟩ := List.exists_mem_of_ne_nil _ hne
        exact ⟨e, (List.mem_filter.1 he).1, (List.mem_filter.1 he).2⟩

/-- Witness for claim C9 at concrete inputs: the empty list and an
all-unselected list are rejected; a successful call implies a non-empty
list. -/
theorem generateDocument_guard_witness :
    generateDocument ([] : List Entity) = .error .noEntities ∧
    generateDocument [entB] = .error .noneSelected ∧
    [entA] ≠ ([] : List Entity) :=
  ⟨(generateDocument_guard []).1 rfl,
   (generateDocument_guard [entB]).2.1 (by decide) (by decide),
   ((generateDocument_guard [entA]).2.2 [entA] rfl).1⟩

/-- Claim C10: the select-all control assigns to every entity the same
selected value — the negation of "every entity was already selected" —
keeping every other field (position by position); afterwards all entities
are selected, or none is when all were already selected. -/
theorem selectAllOnClick_spec (entities : List Entity) :
    (selectAllOnClick entities).length = entities.length ∧
    (∀ i : Nat, (selectAllOnClick entities)[i]? = entities[i]?.map fun ent =>
      { ent with selected := !(entities.all fun x => x.selected) }) ∧
    ((∀ e ∈ entities, e.selected = true) →
      ∀ e ∈ selectAllOnClick entities, e.selected = false) ∧
    ((∃ e, e ∈ entities ∧ e.selected = false) →
      ∀ e ∈ selectAllOnClick entities, e.selected = true) := by
  refine ⟨by simp [selectAllOnClick],
    fun i => by simp [selectAllOnClick, List.getElem?_map], ?_, ?_⟩
  · intro h e he
    have hall : entities.all (fun x => x.selected) = true := by
      rw [List.all_eq_true]
      intro x hx
      exact h x hx
    simp only [selectAllOnClick, List.mem_map] at he
    obtain ⟨a, ha, rfl⟩ := he
    simp [hall]
  · rintro ⟨w, hw, hwsel⟩ e he
    have hall : entities.all (fun x => x.selected) = false := by
      cases hcase : entities.all (fun x => x.selected) with
      | false => rfl
      | true =>
          rw [List.all_eq_true] at hcase
          have := hcase w hw
          rw [hwsel] at this
          cases this
    simp only [selectAllOnClick, List.mem_map] at he
    obtain ⟨a, ha, rfl⟩ := he
    simp [hall]

/-- Witness for claim C10 at concrete inputs: on [entA, entB] (entB not
selected) every entity ends selected; on [entA, entC] (all selected) every
entity ends unselected. -/
theorem selectAllOnClick_spec_witness :
    (selectAllOnClick [entA, entB]).length = 2 ∧
    (selectAllOnClick [entA, entB])[0]? = some { entA with selected := true } ∧
    ({ entA with selected := true }).selected = true ∧
    ({ entA with selected := false }).selected = false := by
  have h := selectAllOnClick_spec [entA, entB]
  have h2 := selectAllOnClick_spec [entA, entC]
  refine ⟨h.1, ?_, ?_, ?_⟩
  · rw [h.2.1 0]
    decide
  · exact h.2.2.2 ⟨entB, by decide, by decide⟩ _ (by decide)
  · exact h2.2.2.1 (by decide) _ (by decide)

/-- Auxiliary: a map that changes neither the selected flag nor the
positions of any entity leaves the selected-non-overlap check unchanged. -/
theorem selectedNonOverlap_map_of_preserve (g : Entity → Entity)
    (hsel : ∀ e, (g e).selected = e.selected)
    (hpos : ∀ e, (g e).positions = e.positions) :
    ∀ l : List Entity, selectedNonOverlap (l.map g) = selectedNonOverlap l := by
  intro l
  induction l with
  | nil => rfl
  | cons e rest ih =>
      simp only [List.map_cons, selectedNonOverlap, List.all_map, ih]
      congr 1
      congr 1
      funext f
      simp [Function.comp, hsel, hpos, entOverlap]

/-- Auxiliary: filtering a list cannot break the selected-non-overlap
check. -/
theorem selectedNonOverlap_filter (p : Entity → Bool) :
    ∀ l : List Entity, selectedNonOverlap l = true →
      selectedNonOverlap (l.filter p) = true := by
  intro l
  induction l with
  | nil => intro h; exact h
  | cons e rest ih =>
      intro h
      simp only [selectedNonOverlap, Bool.and_eq_true] at h
      obtain ⟨h1, h2⟩ := h
      cases hp : p e
      · simp only [List.filter_cons, hp, Bool.false_eq_true, if_false]
        exact ih h2
      · simp only [List.filter_cons, hp, if_true]
        simp only [selectedNonOverlap, Bool.and_eq_true]
        refine ⟨?_, ih h2⟩
        rw [List.all_eq_true] at h1 ⊢
        intro f hf
        exact h1 f (List.mem_of_mem_filter hf)

/-- Claim C1 (amended): updateEntityReplacement, deleteEntity and createGroup
preserve pairwise non-overlap of the spans of selected entities — they change
neither spans nor selection; toggleEntity (which can select a previously
unselected overlapping entity) and addManualEntity (which re-validates
nothing) can break it, as the counterexample shows. -/
theorem store_ops_preserve_selectedNonOverlap (entities : List Entity)
    (entityId v grp : String) (ids : List String)
    (h : selectedNonOverlap entities = true) :
    selectedNonOverlap (updateEntityReplacement entities entityId v) = true ∧
    selectedNonOverlap (deleteEntity entities entityId) = true ∧
    (∀ es : List Entity, createGroup entities ids grp = .ok es →
      selectedNonOverlap es = true) := by
  refine ⟨?_, ?_, ?_⟩
  · simp only [updateEntityReplacement]
    rw [selectedNonOverlap_map_of_preserve]
    · exact h
    · intro e
      by_cases hc : e.id = entityId <;> simp [hc]
    · intro e
      by_cases hc : e.id = entityId <;> simp [hc]
  · simp only [deleteEntity]
    exact selectedNonOverlap_filter _ entities h
  · intro es hes
    simp only [createGroup] at hes
    by_cases h2 : ids.length < 2
    · simp [h2] at hes
    · by_cases hg : grp = ""
      · simp [h2, hg] at hes
        rw [← hes]
        exact h
      · simp [h2, hg] at hes
        rw [← hes, selectedNonOverlap_map_of_preserve]
        · exact h
        · intro e
          by_cases hc : e.id ∈ ids <;> simp [hc]
        · intro e
          by_cases hc : e.id ∈ ids <;> simp [hc]

/-- Witness for the amended claim C1 at concrete inputs: the three
preserving operations applied to [entA, entB] (which satisfies the
invariant). -/
theorem store_ops_preserve_witness :
    selectedNonOverlap (updateEntityReplacement [entA, entB] "1" "[Z]") = true ∧
    selectedNonOverlap (deleteEntity [entA, entB] "1") = true ∧
    selectedNonOverlap [entA, entB] = true :=
  ⟨(store_ops_preserve_selectedNonOverlap [entA, entB] "1" "[Z]" "" ["1", "2"]
      (by decide)).1,
   (store_ops_preserve_selectedNonOverlap [entA, entB] "1" "[Z]" "" ["1", "2"]
      (by decide)).2.1,
   (store_ops_preserve_selectedNonOverlap [entA, entB] "1" "[Z]" "" ["1", "2"]
      (by decide)).2.2 [entA, entB] rfl⟩

/-- Claim C1 counterexample: [entA] satisfies the invariant, yet a manual
add of a selected entity over the same span [0,5) breaks it — manual
insertion re-validates nothing; likewise [entA, entB] satisfies it (entB is
not selected) and toggling entB on breaks it. -/
theorem store_ops_invariant_counterexample :
    selectedNonOverlap [entA] = true ∧
    selectedNonOverlap (addManualEntity [entA] "9" "zz" "person" "[X]" 0 5) = false ∧
    selectedNonOverlap [entA, entB] = true ∧
    selectedNonOverlap (toggleEntity [entA, entB] "2") = false := by
  decide

/-- Claim C5: when no entity is selected, the rewriter returns the original
text exactly (spec-modelled DocumentRewriter). -/
theorem rewrite_no_selected (doc : List Char) (entities : List Entity)
    (h : ∀ e ∈ entities, e.selected = false) :
    rewrite doc entities = .ok doc := by
  have hfil : entities.filter (fun e => e.selected) = [] := by
    rw [List.filter_eq_nil_iff]
    intro e he
    simp [h e he]
  simp [rewrite, selectedSpans, hfil, sortSpans, spansDisjoint, rebuild]

/-- Witness for claim C5 at a concrete input: entB is not selected, so the
document "abcde" comes back verbatim. -/
theorem rewrite_no_selected_witness :
    rewrite "abcde".data [entB] = .ok "abcde".data :=
  rewrite_no_selected "abcde".data [entB] (by decide)

end Anonymizer
